import Mathlib

/-!
Verification of the vhost crate's error taxonomy and control-plane model.

The definitions below shallowly embed `src/lib.rs` of the `vhost` crate:
the `Error` enum, its `Display` implementation, the `From<vhost_user::Error>`
conversion and the `Result` alias.  Payload-carrying variants wrap lower-level
errors whose own `Display` rendering is all that the wrapping `Display` uses;
those payloads are embedded as structures carrying an abstract discriminant
together with their rendering string.  Parts of the crate that live in
modules outside the packaged source (the backend trait implementations and
the vhost-user feature negotiation) are modelled from the specification and
marked as such in their doc comments.
-/

namespace Vhost

/-- Embedding of `std::io::Error` as used by this crate: the only observation
the crate makes of it is its `Display` rendering, so we keep an abstract
error discriminant alongside that rendering. -/
structure IoError where
  errKind : Nat
  rendering : String
deriving DecidableEq, Repr

/-- Embedding of `vhost_user::Error` (the protocol subsystem's error type):
the wrapping code only pattern-matches it as a whole and renders it via its
own `Display`, so we keep an abstract discriminant plus the rendering. -/
structure VhostUserError where
  code : Nat
  rendering : String
deriving DecidableEq, Repr

/-- Embedding of `enum Error` from `src/lib.rs` lines 56–107, including the
feature-gated variants (`VhostOpen`/`IoctlError` under `vhost-kern`,
`VhostUserProtocol` under the vhost-user features, `VhostNetSetBackend`
under `vhost-net`). -/
inductive Error where
  | InvalidOperation
  | InvalidGuestMemory
  | InvalidGuestMemoryRegion
  | InvalidQueue
  | DescriptorTableAddress
  | UsedAddress
  | AvailAddress
  | LogAddress
  | VhostGetFeatures
  | VhostSetFeatures
  | VhostSetMemTable
  | VhostSetVringNum
  | VhostSetVringAddr
  | VhostSetVringBase
  | VhostSetVringCall
  | VhostSetVringKick
  | VhostNet (s : String)
  | VhostOpen (e : IoError)
  | IoctlError (e : IoError)
  | IOError (e : IoError)
  | VhostUserProtocol (e : VhostUserError)
  | VhostNetSetBackend
deriving DecidableEq, Repr

/-- Embedding of `impl std::fmt::Display for Error` (`src/lib.rs` lines
109–140): each `write!(f, "...")` arm becomes the corresponding string, and
an arm `write!(f, "...: {}", e)` becomes the literal followed by the
payload's rendering.  The source's typos ("virtque", "talbe") are kept
verbatim. -/
def display : Error → String
  | .InvalidOperation => "invalid vhost operations"
  | .InvalidGuestMemory => "invalid guest memory object"
  | .InvalidGuestMemoryRegion => "invalid guest memory region"
  | .InvalidQueue => "invalid virtque"
  | .DescriptorTableAddress => "invalid virtque descriptor talbe address"
  | .UsedAddress => "invalid virtque used talbe address"
  | .AvailAddress => "invalid virtque available talbe address"
  | .LogAddress => "invalid virtque log address"
  | .VhostGetFeatures => "failed to get features"
  | .VhostSetFeatures => "failed to set features"
  | .VhostSetMemTable => "failed to set mem table"
  | .VhostSetVringNum => "failed to set vring num"
  | .VhostSetVringAddr => "failed to set vring addr"
  | .VhostSetVringBase => "failed to set vring base"
  | .VhostSetVringCall => "failed to set vring call"
  | .VhostSetVringKick => "failed to set vring kick"
  | .VhostNet s => "failed to setup vhost-net: " ++ s
  | .VhostOpen e => "failure in opening vhost file: " ++ e.rendering
  | .IoctlError e => "failure in vhost ioctl: " ++ e.rendering
  | .IOError e => "IO error: " ++ e.rendering
  | .VhostUserProtocol e => "vhost-user: " ++ e.rendering
  | .VhostNetSetBackend => "failed to set vhost-net backend"

/-- Embedding of `pub type Result<T> = std::result::Result<T, Error>`:
every fallible vhost operation fails with a value of `Error`. -/
abbrev VhostResult (α : Type) := Except Error α

/-- Embedding of `impl From<vhost_user::Error> for Error` (`src/lib.rs`
lines 142–147): the conversion used by the `?` operator to lift protocol
errors into the crate error type. -/
def Error.ofVhostUser (err : VhostUserError) : Error :=
  Error.VhostUserProtocol err

/-- The sixteen payload-free variants named by the spec, in source order. -/
def payloadFreeListed : List Error :=
  [.InvalidOperation, .InvalidGuestMemory, .InvalidGuestMemoryRegion,
   .InvalidQueue, .DescriptorTableAddress, .UsedAddress, .AvailAddress,
   .LogAddress, .VhostGetFeatures, .VhostSetFeatures, .VhostSetMemTable,
   .VhostSetVringNum, .VhostSetVringAddr, .VhostSetVringBase,
   .VhostSetVringCall, .VhostSetVringKick]

/-- C1: Every failure of a vhost operation is a value of the typed enum
`Error` (`VhostResult` uses it as its error type), and the sixteen listed
payload-free variants are pairwise distinct values whose `Display`
renderings are pairwise distinct strings. -/
theorem c1_payload_free_variants_distinguishable :
    payloadFreeListed.Nodup ∧ (payloadFreeListed.map display).Nodup := by
  constructor <;> decide

/-- C3: For every wrapped lower-level error, the `Display` rendering of the
wrapping variant is the fixed kind-identifying literal followed by the
wrapped value's own rendering: `"IO error: "` for `IOError`,
`"vhost-user: "` for `VhostUserProtocol`, and `"failed to setup
vhost-net: "` for `VhostNet`. -/
theorem c3_wrapping_display_concatenation
    (e : IoError) (p : VhostUserError) (s : String) :
    display (.IOError e) = "IO error: " ++ e.rendering ∧
    display (.VhostUserProtocol p) = "vhost-user: " ++ p.rendering ∧
    display (.VhostNet s) = "failed to setup vhost-net: " ++ s :=
  ⟨rfl, rfl, rfl⟩

/-- C4: `From<vhost_user::Error> for Error` wraps the protocol error
unchanged — the conversion yields exactly `VhostUserProtocol` applied to the
original error, so the payload is recoverable by pattern matching and the
conversion is injective. -/
theorem c4_from_vhost_user_wraps_unchanged :
    (∀ e : VhostUserError, Error.ofVhostUser e = Error.VhostUserProtocol e) ∧
    Function.Injective Error.ofVhostUser := by
  refine ⟨fun e => rfl, fun e₁ e₂ h => ?_⟩
  cases h
  rfl

/-- C5: `DescriptorTableAddress`, `AvailAddress`, `UsedAddress` and
`LogAddress` are four pairwise distinct variants with pairwise distinct
`Display` messages, and each message names its address kind: the descriptor
message contains "descriptor", the available message "available", the used
message "used" and the log message "log" (the kind word occurring in no
other of the four messages), so a caller can tell which address failed
validation. -/
theorem c5_address_errors_distinguished :
    ([Error.DescriptorTableAddress, Error.AvailAddress, Error.UsedAddress,
      Error.LogAddress] : List Error).Nodup ∧
    ([Error.DescriptorTableAddress, Error.AvailAddress, Error.UsedAddress,
      Error.LogAddress].map display).Nodup ∧
    (∃ a b, display Error.DescriptorTableAddress = a ++ "descriptor" ++ b) ∧
    (∃ a b, display Error.AvailAddress = a ++ "available" ++ b) ∧
    (∃ a b, display Error.UsedAddress = a ++ "used" ++ b) ∧
    (∃ a b, display Error.LogAddress = a ++ "log" ++ b) := by
  refine ⟨by decide, by decide, ⟨"invalid virtque ", " talbe address", ?_⟩,
    ⟨"invalid virtque ", " talbe address", ?_⟩,
    ⟨"invalid virtque ", " talbe address", ?_⟩,
    ⟨"invalid virtque ", " address", ?_⟩⟩ <;> rfl

/-- The crate's cargo feature switches that gate variants of `Error`
(`vhost-kern`, `vhost-user-master`, `vhost-user-slave`, `vhost-net`). -/
structure FeatureConfig where
  vhostKern : Bool
  vhostUserMaster : Bool
  vhostUserSlave : Bool
  vhostNet : Bool
deriving DecidableEq, Repr

/-- Which `Error` variants exist under a given feature configuration,
mirroring the `#[cfg(...)]` attributes on the enum variants. -/
def variantEnabled (cfg : FeatureConfig) : Error → Bool
  | .VhostOpen _ => cfg.vhostKern
  | .IoctlError _ => cfg.vhostKern
  | .VhostUserProtocol _ => cfg.vhostUserMaster || cfg.vhostUserSlave
  | .VhostNetSetBackend => cfg.vhostNet
  | _ => true

lemma append_ne_empty_left (a x : String) (h : a.data ≠ []) :
    a ++ x ≠ "" := by
  intro hc
  have hd := congrArg String.data hc
  rw [String.data_append] at hd
  exact h (List.append_eq_nil.mp hd).1

/-- C8: `Display` formatting of `Error` is total: the embedded `fmt` match
covers every variant available under every feature configuration and always
produces a (nonempty) message — there is no unhandled case, and the pure
function cannot panic or fail on its own. -/
theorem c8_display_total (cfg : FeatureConfig) (e : Error)
    (h : variantEnabled cfg e = true) : display e ≠ "" := by
  cases e <;>
    first
      | exact append_ne_empty_left _ _ (by decide)
      | decide

/-- Witness for C8 at a concrete configuration and error value. -/
theorem c8_display_total_witness :
    display (.IOError ⟨5, "pipe"⟩) ≠ "" :=
  c8_display_total ⟨true, true, false, false⟩ (.IOError ⟨5, "pipe"⟩) rfl

/-- All payload-free variants of `Error`, the feature-gated
`VhostNetSetBackend` included. -/
def payloadFreeAll : List Error :=
  payloadFreeListed ++ [.VhostNetSetBackend]

lemma ne_of_pfx_left {p : List Char} {l m : List Char}
    (hp : p <+: l) (h : ¬ p <+: m) : l ≠ m := by
  intro he
  exact h (he ▸ hp)

lemma ne_of_pfx_incomparable {p q : List Char} {l m : List Char}
    (hp : p <+: l) (hq : q <+: m)
    (h1 : ¬ p <+: q) (h2 : ¬ q <+: p) : l ≠ m := by
  intro he
  subst he
  rcases List.prefix_or_prefix_of_prefix hp hq with h | h
  · exact h1 h
  · exact h2 h

lemma string_ne_of_data_ne {s t : String} (h : s.data ≠ t.data) : s ≠ t :=
  fun he => h (congrArg String.data he)

lemma ioerror_pfx (e : IoError) :
    "IO error: ".data <+: (display (.IOError e)).data := by
  rw [show display (.IOError e) = "IO error: " ++ e.rendering from rfl,
    String.data_append]
  exact List.prefix_append _ _

lemma vhostuser_pfx (p : VhostUserError) :
    "vhost-user: ".data <+: (display (.VhostUserProtocol p)).data := by
  rw [show display (.VhostUserProtocol p) = "vhost-user: " ++ p.rendering
    from rfl, String.data_append]
  exact List.prefix_append _ _

lemma vhostnet_pfx (s : String) :
    "failed to setup vhost-net: ".data <+: (display (.VhostNet s)).data := by
  rw [show display (.VhostNet s) = "failed to setup vhost-net: " ++ s
    from rfl, String.data_append]
  exact List.prefix_append _ _

/-- C9: The payload-carrying renderings begin with the pairwise distinct
fixed literals `"IO error: "`, `"vhost-user: "` and
`"failed to setup vhost-net: "`; none of those literals begins any
payload-free variant's message; consequently the renderings of the three
payload-carrying families never collide with each other (the literals being
mutually non-prefixing) nor with any payload-free message, whatever the
payloads are. -/
theorem c9_renderings_never_collide :
    (∀ e : IoError, "IO error: ".data <+: (display (.IOError e)).data) ∧
    (∀ p : VhostUserError,
      "vhost-user: ".data <+: (display (.VhostUserProtocol p)).data) ∧
    (∀ s : String,
      "failed to setup vhost-net: ".data <+: (display (.VhostNet s)).data) ∧
    (("IO error: " : String) ≠ "vhost-user: " ∧
      ("IO error: " : String) ≠ "failed to setup vhost-net: " ∧
      ("vhost-user: " : String) ≠ "failed to setup vhost-net: ") ∧
    (∀ v ∈ payloadFreeAll,
      ¬ ("IO error: ".data <+: (display v).data) ∧
      ¬ ("vhost-user: ".data <+: (display v).data) ∧
      ¬ ("failed to setup vhost-net: ".data <+: (display v).data)) ∧
    (∀ (e : IoError) (p : VhostUserError) (s : String),
      display (.IOError e) ≠ display (.VhostUserProtocol p) ∧
      display (.IOError e) ≠ display (.VhostNet s) ∧
      display (.VhostUserProtocol p) ≠ display (.VhostNet s)) ∧
    (∀ v ∈ payloadFreeAll, ∀ (e : IoError) (p : VhostUserError) (s : String),
      display (.IOError e) ≠ display v ∧
      display (.VhostUserProtocol p) ≠ display v ∧
      display (.VhostNet s) ≠ display v) := by
  refine ⟨ioerror_pfx, vhostuser_pfx, vhostnet_pfx,
    ⟨by decide, by decide, by decide⟩, by decide, ?_, ?_⟩
  · intro e p s
    exact ⟨string_ne_of_data_ne (ne_of_pfx_incomparable (ioerror_pfx e)
        (vhostuser_pfx p) (by decide) (by decide)),
      string_ne_of_data_ne (ne_of_pfx_incomparable (ioerror_pfx e)
        (vhostnet_pfx s) (by decide) (by decide)),
      string_ne_of_data_ne (ne_of_pfx_incomparable (vhostuser_pfx p)
        (vhostnet_pfx s) (by decide) (by decide))⟩
  · intro v hv e p s
    have hfree := (by decide :
      ∀ v ∈ payloadFreeAll,
        ¬ ("IO error: ".data <+: (display v).data) ∧
        ¬ ("vhost-user: ".data <+: (display v).data) ∧
        ¬ ("failed to setup vhost-net: ".data <+: (display v).data)) v hv
    exact ⟨string_ne_of_data_ne (ne_of_pfx_left (ioerror_pfx e) hfree.1),
      string_ne_of_data_ne (ne_of_pfx_left (vhostuser_pfx p) hfree.2.1),
      string_ne_of_data_ne (ne_of_pfx_left (vhostnet_pfx s) hfree.2.2)⟩

/-- Witness for C9 at concrete payloads and a concrete payload-free
variant. -/
theorem c9_renderings_never_collide_witness :
    display (.IOError ⟨2, "x"⟩) ≠ display Error.InvalidQueue :=
  (c9_renderings_never_collide.2.2.2.2.2.2 Error.InvalidQueue (by decide)
    ⟨2, "x"⟩ ⟨0, "y"⟩ "z").1

/-- Observable key of an `Error` value: its constructor tag together with
the `Display` rendering of its payload (empty for payload-free variants).
This is everything the `fmt` implementation inspects. -/
def obsKey : Error → Nat × String
  | .InvalidOperation => (0, "")
  | .InvalidGuestMemory => (1, "")
  | .InvalidGuestMemoryRegion => (2, "")
  | .InvalidQueue => (3, "")
  | .DescriptorTableAddress => (4, "")
  | .UsedAddress => (5, "")
  | .AvailAddress => (6, "")
  | .LogAddress => (7, "")
  | .VhostGetFeatures => (8, "")
  | .VhostSetFeatures => (9, "")
  | .VhostSetMemTable => (10, "")
  | .VhostSetVringNum => (11, "")
  | .VhostSetVringAddr => (12, "")
  | .VhostSetVringBase => (13, "")
  | .VhostSetVringCall => (14, "")
  | .VhostSetVringKick => (15, "")
  | .VhostNet s => (16, s)
  | .VhostOpen e => (17, e.rendering)
  | .IoctlError e => (18, e.rendering)
  | .IOError e => (19, e.rendering)
  | .VhostUserProtocol e => (20, e.rendering)
  | .VhostNetSetBackend => (21, "")

def displayOfKey : Nat × String → String
  | (0, _) => "invalid vhost operations"
  | (1, _) => "invalid guest memory object"
  | (2, _) => "invalid guest memory region"
  | (3, _) => "invalid virtque"
  | (4, _) => "invalid virtque descriptor talbe address"
  | (5, _) => "invalid virtque used talbe address"
  | (6, _) => "invalid virtque available talbe address"
  | (7, _) => "invalid virtque log address"
  | (8, _) => "failed to get features"
  | (9, _) => "failed to set features"
  | (10, _) => "failed to set mem table"
  | (11, _) => "failed to set vring num"
  | (12, _) => "failed to set vring addr"
  | (13, _) => "failed to set vring base"
  | (14, _) => "failed to set vring call"
  | (15, _) => "failed to set vring kick"
  | (16, s) => "failed to setup vhost-net: " ++ s
  | (17, s) => "failure in opening vhost file: " ++ s
  | (18, s) => "failure in vhost ioctl: " ++ s
  | (19, s) => "IO error: " ++ s
  | (20, s) => "vhost-user: " ++ s
  | (21, _) => "failed to set vhost-net backend"
  | (_, _) => ""

lemma display_eq_displayOfKey (e : Error) :
    display e = displayOfKey (obsKey e) := by
  cases e <;> rfl

/-- C10: `Display` of `Error` is deterministic and depends only on the
observable value: two errors with the same constructor and the same payload
rendering format to identical strings — no hidden or global state can
influence the output. -/
theorem c10_display_deterministic (e₁ e₂ : Error)
    (h : obsKey e₁ = obsKey e₂) : display e₁ = display e₂ := by
  rw [display_eq_displayOfKey, display_eq_displayOfKey, h]

/-- Witness for C10: two `IOError` payloads with different discriminants but
the same rendering format identically. -/
theorem c10_display_deterministic_witness :
    display (.IOError ⟨1, "broken pipe"⟩) =
      display (.IOError ⟨7, "broken pipe"⟩) :=
  c10_display_deterministic (.IOError ⟨1, "broken pipe"⟩)
    (.IOError ⟨7, "broken pipe"⟩) rfl

/-- The minimum wire message set of control operations (spec §6): get/set
device features, get/set protocol features, set owner, reset owner, set
memory table, set vring num/addr/base/call/kick/err/enable, set log base. -/
inductive WireOp where
  | getFeatures
  | setFeatures
  | getProtocolFeatures
  | setProtocolFeatures
  | setOwner
  | resetOwner
  | setMemTable
  | setVringNum
  | setVringAddr
  | setVringBase
  | setVringCall
  | setVringKick
  | setVringErr
  | setVringEnable
  | setLogBase
deriving DecidableEq, Repr

/-- The dedicated operation-failure variant of `Error` for each wire
operation, read off the enum in `src/lib.rs` lines 56–107: `VhostGetFeatures`
through `VhostSetVringKick` name their operation; the remaining operations
have no variant of their own in the enum. -/
def dedicatedFailureKind : WireOp → Option Error
  | .getFeatures => some .VhostGetFeatures
  | .setFeatures => some .VhostSetFeatures
  | .setMemTable => some .VhostSetMemTable
  | .setVringNum => some .VhostSetVringNum
  | .setVringAddr => some .VhostSetVringAddr
  | .setVringBase => some .VhostSetVringBase
  | .setVringCall => some .VhostSetVringCall
  | .setVringKick => some .VhostSetVringKick
  | .getProtocolFeatures => none
  | .setProtocolFeatures => none
  | .setOwner => none
  | .resetOwner => none
  | .setVringErr => none
  | .setVringEnable => none
  | .setLogBase => none

/-- The wire operations that do have a dedicated failure variant. -/
def coveredWireOps : List WireOp :=
  [.getFeatures, .setFeatures, .setMemTable, .setVringNum, .setVringAddr,
   .setVringBase, .setVringCall, .setVringKick]

/-- C2 (counterexample): not every operation of the minimum wire message
set has a dedicated failure kind — `set_owner` (likewise get/set protocol
features, reset owner, set vring err/enable, set log base) has no variant
of its own in `Error`. -/
theorem c2_counterexample :
    ¬ ∀ op : WireOp, (dedicatedFailureKind op).isSome = true := by
  intro h
  exact absurd (h .setOwner) (by decide)

/-- C2 (amended): the typed failure surface contains a dedicated
operation-failure kind exactly for get features, set features, set mem
table, and set vring num/addr/base/call/kick; get/set protocol features,
set owner, reset owner, set vring err, set vring enable and set log base
have none. -/
theorem c2_dedicated_kinds_exactly_covered (op : WireOp) :
    (dedicatedFailureKind op).isSome = true ↔ op ∈ coveredWireOps := by
  cases op <;> decide

/-- Modelled from the spec: the effective-feature computation of the
negotiation step (spec §4.4, §8, §9) — the code lives in the `vhost_user`
module, which is not part of the packaged source.  "Feature/protocol-feature
negotiation should be modeled as a pure function (two bitmasks in, one
effective bitmask out)": the effective set is the bitwise intersection of
both advertisements. -/
def negotiate (a b : Nat) : Nat := a &&& b

/-- C7: effective-feature negotiation is a pure computation of the bitwise
intersection of the two advertised bitmasks, and it is commutative: both
sides converge on the same effective set regardless of which advertisement
comes first. -/
theorem c7_negotiation_commutative (a b : Nat) :
    negotiate a b = a &&& b ∧ negotiate a b = negotiate b a :=
  ⟨rfl, Nat.land_comm a b⟩

/-- Modelled from the spec: a shared memory region of the Address/Region
Model (spec §3) — {guest_physical_base, size, backend_address, mmap_offset,
backing_descriptor}. -/
structure MemoryRegion where
  gpa : Nat
  size : Nat
  backendAddr : Nat
  mmapOffset : Nat
  fd : Nat
deriving DecidableEq, Repr

/-- Modelled from the spec: a memory table is an ordered sequence of
regions (spec §3). -/
abbrev MemoryTable := List MemoryRegion

/-- A guest-physical address lies inside a region. -/
def regionCovers (r : MemoryRegion) (a : Nat) : Bool :=
  decide (r.gpa ≤ a) && decide (a < r.gpa + r.size)

/-- Address lookup of the Address/Region Model (spec §4.1): an address is
covered when some region of the table contains it. -/
def tableCovers (t : MemoryTable) (a : Nat) : Bool :=
  t.any (fun r => regionCovers r a)

/-- Modelled from the spec: per-queue mutable state (spec §3,
VirtqueueState) — created fully unset and disabled; fields are filled in
one at a time by the capability-interface calls. -/
structure VirtqueueState where
  num : Option Nat
  descTableAddr : Option Nat
  availRingAddr : Option Nat
  usedRingAddr : Option Nat
  lastUsedIndex : Nat
  callFd : Option Nat
  kickFd : Option Nat
  errFd : Option Nat
  enabled : Bool
  logAddr : Option Nat
deriving DecidableEq, Repr

/-- Modelled from the spec: the backend-side configuration state a
connection maintains — the installed memory table (none before
`set_mem_table`) and the per-queue states. -/
structure BackendState where
  memTable : Option MemoryTable
  queues : List VirtqueueState
deriving DecidableEq, Repr

/-- An optional address is set and valid against the installed table:
a table must be installed, the address present, and covered (spec §4.2:
addresses are validated against the current MemoryTable). -/
def addrValid (t : Option MemoryTable) (a : Option Nat) : Bool :=
  match t, a with
  | some tbl, some addr => tableCovers tbl addr
  | _, _ => false

/-- All required fields of a queue are set and valid (spec §4.5: num, the
three ring addresses, kick and call descriptors, addresses validated
against the currently installed MemoryTable). -/
def queueReady (t : Option MemoryTable) (q : VirtqueueState) : Bool :=
  q.num.isSome && q.kickFd.isSome && q.callFd.isSome &&
  addrValid t q.descTableAddr && addrValid t q.availRingAddr &&
  addrValid t q.usedRingAddr

/-- Modelled from the spec: `set_vring_enable(index, bool)` of the Backend
Capability Interface (spec §4.2, §8) — the implementing code lives in the
`backend`/`vhost_user` modules, which are not part of the packaged source.
The call returns the updated state paired with an optional error (mirroring
`&mut self` plus `Result<()>`): enabling requires every required field of
the queue to be set and valid, failing with `InvalidQueue` and leaving the
state untouched otherwise; disabling always succeeds and clears no other
field (spec §4.5). -/
def set_vring_enable (s : BackendState) (i : Nat) (b : Bool) :
    BackendState × Option Error :=
  match s.queues[i]? with
  | none => (s, some .InvalidQueue)
  | some q =>
    if b then
      if queueReady s.memTable q then
        ({ s with queues := s.queues.set i { q with enabled := true } }, none)
      else (s, some .InvalidQueue)
    else
      ({ s with queues := s.queues.set i { q with enabled := false } }, none)

/-- C6: for every queue index `i` in range, `set_vring_enable s i true`
succeeds if and only if all required fields of queue `i` (num, the three
ring addresses, kick and call descriptors) are set and valid against the
installed memory table; otherwise it returns exactly the unchanged state
together with the typed error `InvalidQueue` — so on failure nothing is
mutated and the queue's enabled flag keeps its prior (false) value. -/
theorem c6_set_vring_enable_iff_ready (s : BackendState) (i : Nat)
    (h : i < s.queues.length) :
    ((set_vring_enable s i true).2 = none ↔
      queueReady s.memTable s.queues[i] = true) ∧
    (queueReady s.memTable s.queues[i] = false →
      set_vring_enable s i true = (s, some Error.InvalidQueue)) := by
  have hsome : s.queues[i]? = some s.queues[i] := List.getElem?_eq_getElem h
  unfold set_vring_enable
  rw [hsome]
  cases hq : queueReady s.memTable s.queues[i] <;> simp [hq]

/-- A concrete memory table region for the witnesses: guest-physical
`[0, 4096)`. -/
def demoRegion : MemoryRegion := ⟨0, 4096, 0x7f0000, 0, 10⟩

/-- A concrete fully-configured, not yet enabled queue. -/
def demoQueue : VirtqueueState :=
  ⟨some 256, some 0x100, some 0x200, some 0x300, 0, some 3, some 4, none,
   false, none⟩

/-- A concrete backend state: one installed region, one ready queue. -/
def demoState : BackendState := ⟨some [demoRegion], [demoQueue]⟩

/-- Witness for C6 at the concrete state: queue 0 is ready, so enabling
succeeds. -/
theorem c6_set_vring_enable_iff_ready_witness :
    ((set_vring_enable demoState 0 true).2 = none ↔
      queueReady demoState.memTable demoState.queues[0] = true) ∧
    (queueReady demoState.memTable demoState.queues[0] = false →
      set_vring_enable demoState 0 true = (demoState, some Error.InvalidQueue)) :=
  c6_set_vring_enable_iff_ready demoState 0 (by decide)

end Vhost
